import Mathlib

/-!
Verification development for the tool-invocation bridge repository:
a Tool Host (src/index.js) exposing one "echo" capability over the MCP
request/response protocol, and a Bridge Service (src/backend.js) that
mediates between an HTTP client, an LLM backend and the Tool Host.

The JavaScript source is shallowly embedded: JSON values become the
inductive `JsonValue` (numbers as integers; no claim involves numeric
arguments), argument objects become association lists, JS truthiness of
strings (`x || d`) becomes `jsOr`, and each request handler becomes a
pure Lean function from its inputs (and the responses of its external
collaborators, such as the LLM backend) to its observable outputs,
including the ordered trace of Tool Host calls it performs.
-/

namespace MCPBridge

/-- JSON-like values as they travel between the processes. Numbers are
modelled as integers; no claim exercises numeric payloads. -/
inductive JsonValue where
  | null
  | bool (b : Bool)
  | num (n : Int)
  | str (s : String)
  | arr (elems : List JsonValue)
  | obj (fields : List (String × JsonValue))
deriving Repr

/-- An argument object: a mapping from field names to JSON values, as
produced by `JSON.parse` of the request body or of the LLM's
function-call arguments. -/
abbrev Args := List (String × JsonValue)

/-- JS property access `args.key`: `none` models `undefined`. -/
def Args.get (args : Args) (key : String) : Option JsonValue :=
  (args.find? (fun p => p.1 == key)).map (fun p => p.2)

/-- JS `a || b` on an optional string: `undefined`/`null` and the empty
string are falsy and select the fallback. -/
def jsOr (a : Option String) (b : String) : String :=
  match a with
  | some s => if s == "" then b else s
  | none => b

mutual

/-- JS template-literal stringification of a value, as in
`Echo: ${args.message}` (src/index.js line 52). -/
def jsTemplateString : JsonValue → String
  | JsonValue.null => "null"
  | JsonValue.bool b => cond b "true" "false"
  | JsonValue.num n => toString n
  | JsonValue.str s => s
  | JsonValue.arr xs => jsTemplateArray xs
  | JsonValue.obj _ => "[object Object]"

/-- JS stringification of an array: elements joined with commas. -/
def jsTemplateArray : List JsonValue → String
  | [] => ""
  | [x] => jsTemplateString x
  | x :: y :: xs => jsTemplateString x ++ "," ++ jsTemplateArray (y :: xs)

end

/-- JS template interpolation of a possibly-missing property:
`undefined` renders as the string "undefined". -/
def jsTemplateOpt : Option JsonValue → String
  | none => "undefined"
  | some v => jsTemplateString v

/-- One typed content block of a ToolInvocationResult
(src/index.js lines 48-54). -/
structure TextContent where
  type : String
  text : String
deriving Repr, DecidableEq

/-- A ToolInvocationResult: an ordered sequence of content blocks. -/
structure ToolResult where
  content : List TextContent
deriving Repr, DecidableEq

/-- A ToolDescriptor as advertised by the Tool Host catalog. The
`description` and `inputSchema` fields are optional at the protocol
level (src/backend.js tolerates their absence). -/
structure ToolDescriptor where
  name : String
  description : Option String
  inputSchema : Option JsonValue
deriving Repr

/-- The response shape of the Tool Host `list` operation. -/
structure ListToolsResult where
  tools : List ToolDescriptor
deriving Repr

/-- The input schema advertised for the echo tool
(src/index.js lines 28-37). -/
def echoInputSchema : JsonValue :=
  JsonValue.obj
    [("type", JsonValue.str "object"),
     ("properties", JsonValue.obj
       [("message", JsonValue.obj
         [("type", JsonValue.str "string"),
          ("description", JsonValue.str "The message to echo back")])]),
     ("required", JsonValue.arr [JsonValue.str "message"])]

/-- The ListToolsRequestSchema handler of the Tool Host
(src/index.js lines 23-41): the fixed catalog with the single echo
tool. -/
def listToolsHandler : ListToolsResult :=
  { tools :=
      [{ name := "echo",
         description := some "Echo back the input message",
         inputSchema := some echoInputSchema }] }

/-- The CallToolRequestSchema handler of the Tool Host
(src/index.js lines 44-58): echo returns the interpolated message with
the fixed prefix; any other name throws. -/
def callToolHandler (name : String) (args : Args) : Except String ToolResult :=
  if name == "echo" then
    Except.ok
      { content :=
          [{ type := "text",
             text := "Echo: " ++ jsTemplateOpt (args.get "message") }] }
  else
    Except.error ("Unknown tool: " ++ name)

/-- C1: For every string s, invoking the Tool Host's call operation with
name "echo" and arguments containing message: s succeeds and returns a
result whose content is a single text block whose text equals the
literal concatenation of "Echo: " and s, with no trimming or other
transformation. -/
theorem echo_call_literal_concat (s : String) :
    callToolHandler "echo" [("message", JsonValue.str s)] =
      Except.ok { content := [{ type := "text", text := "Echo: " ++ s }] } := by
  simp [callToolHandler, Args.get, List.find?, jsTemplateOpt, jsTemplateString]

/-- C2 (code bug evidence): invoking the call operation with name "echo"
and an empty argument mapping does not fail with an invalid-arguments
error; the handler executes anyway and returns the text
"Echo: undefined", contradicting the catalog's declaration that the
message field is required. -/
theorem echo_call_missing_message_executes :
    callToolHandler "echo" [] =
      Except.ok { content := [{ type := "text", text := "Echo: undefined" }] } := by
  simp [callToolHandler, Args.get, List.find?, jsTemplateOpt]

/-- C3: For every name n not present in the Tool Host's catalog and
every argument mapping, the call operation fails with an error whose
message names n; it never silently succeeds. -/
theorem call_unknown_tool_errors (n : String) (args : Args)
    (h : n ∉ listToolsHandler.tools.map ToolDescriptor.name) :
    callToolHandler n args = Except.error ("Unknown tool: " ++ n) := by
  have hne : n ≠ "echo" := by
    simpa [listToolsHandler] using h
  simp [callToolHandler, hne]

/-- Witness for C3: the concrete name "weather" is absent from the
catalog, and calling it yields the unknown-tool error naming it. -/
theorem call_unknown_tool_errors_witness :
    "weather" ∉ listToolsHandler.tools.map ToolDescriptor.name ∧
      callToolHandler "weather" [] = Except.error ("Unknown tool: " ++ "weather") :=
  ⟨by simp [listToolsHandler], call_unknown_tool_errors "weather" [] (by simp [listToolsHandler])⟩

/-! Bridge Service (src/backend.js). -/

/-- The function half of an OpenAI tool declaration
(src/backend.js lines 101-106). -/
structure OpenAIFunctionSpec where
  name : String
  description : String
  parameters : JsonValue
deriving Repr

/-- One OpenAI tool declaration produced by the catalog translation. -/
structure OpenAIToolDecl where
  type : String
  function : OpenAIFunctionSpec
deriving Repr

/-- convertMCPToolsToOpenAI (src/backend.js lines 98-107): each
ToolDescriptor becomes a function declaration; `tool.description || ''`
and `tool.inputSchema || {}` supply the defaults. -/
def convertMCPToolsToOpenAI (mcpTools : ListToolsResult) : List OpenAIToolDecl :=
  mcpTools.tools.map fun tool =>
    { type := "function",
      function :=
        { name := tool.name,
          description := jsOr tool.description "",
          parameters := tool.inputSchema.getD (JsonValue.obj []) } }

/-- The `jsOr` fallback with the empty string as default is exactly
`Option.getD ""`: an empty description is replaced by itself. -/
theorem jsOr_empty_default (a : Option String) : jsOr a "" = a.getD "" := by
  cases a with
  | none => rfl
  | some s =>
    by_cases h : s = ""
    · simp [jsOr, h]
    · simp [jsOr, h]

/-- C8: The catalog-translation function is a pure element-wise mapping:
each descriptor yields a declaration of type "function" whose name,
description and parameter schema equal the descriptor's fields
unchanged, except that a missing description becomes the empty string
and a missing input schema becomes an empty object schema. -/
theorem convertMCPToolsToOpenAI_elementwise (ts : ListToolsResult) :
    (convertMCPToolsToOpenAI ts).map (fun t => t.type) =
        ts.tools.map (fun _ => "function") ∧
      (convertMCPToolsToOpenAI ts).map (fun t => t.function.name) =
        ts.tools.map ToolDescriptor.name ∧
      (convertMCPToolsToOpenAI ts).map (fun t => t.function.description) =
        ts.tools.map (fun d => d.description.getD "") ∧
      (convertMCPToolsToOpenAI ts).map (fun t => t.function.parameters) =
        ts.tools.map (fun d => d.inputSchema.getD (JsonValue.obj [])) := by
  refine ⟨?_, ?_, ?_, ?_⟩ <;>
    simp [convertMCPToolsToOpenAI, Function.comp_def, jsOr_empty_default,
      List.map_const']

/-- The MCP client object constructed by initMCPClient
(src/backend.js lines 42-50). -/
structure MCPClientInfo where
  name : String
  version : String
deriving Repr, DecidableEq

/-- The module-level mutable state of the Bridge Service: the shared
`mcpClient` variable (`null` initially, src/backend.js line 20). -/
structure BridgeState where
  mcpClient : Option MCPClientInfo
deriving Repr, DecidableEq

/-- OPENAI_API_KEY (src/backend.js line 24):
`process.env.OPENAI_API_KEY || "None"`. The environment variable is
`none` when unset; the empty string is falsy and also selects the
fallback. -/
def OPENAI_API_KEY (envKey : Option String) : String :=
  jsOr envKey "None"

/-- The openaiConfigured field of the health response
(src/backend.js line 212): `!!OPENAI_API_KEY && OPENAI_API_KEY !== ''`.
A non-empty string is truthy, so both conjuncts test non-emptiness. -/
def openaiConfigured (envKey : Option String) : Bool :=
  (!(OPENAI_API_KEY envKey == "")) && (OPENAI_API_KEY envKey != "")

/-- The GET /api/health response shape (src/backend.js lines 208-214). -/
structure HealthResponse where
  status : String
  connected : Bool
  openaiConfigured : Bool
deriving Repr, DecidableEq

/-- The /api/health handler (src/backend.js lines 208-214):
`connected: mcpClient !== null`. -/
def healthHandler (s : BridgeState) (envKey : Option String) : HealthResponse :=
  { status := "ok",
    connected := s.mcpClient.isSome,
    openaiConfigured := openaiConfigured envKey }

/-- initMCPClient (src/backend.js lines 32-59), from the point the
Client object is constructed: the module-level `mcpClient` is assigned
before `connect` is awaited, and the catch block rethrows without
resetting it, so the assignment survives a failed connect. The
`connectOk` flag models whether `mcpClient.connect(mcpTransport)`
succeeds. -/
def initMCPClient (s : BridgeState) (connectOk : Bool) :
    BridgeState × Except String Unit :=
  let s1 : BridgeState :=
    { s with mcpClient := some { name := "chatbot-client", version := "1.0.0" } }
  if connectOk then (s1, Except.ok ())
  else (s1, Except.error "Failed to connect to MCP server")

/-- C9: After any invocation of initMCPClient that reaches construction
of the client object, the health handler reports connected: true even if
the subsequent connect to the Tool Host channel failed: the flag records
that initialization was attempted, not that the channel is live. -/
theorem health_connected_after_init (s : BridgeState) (connectOk : Bool)
    (envKey : Option String) :
    (healthHandler (initMCPClient s connectOk).1 envKey).connected = true := by
  cases connectOk <;> simp [healthHandler, initMCPClient]

/-- C7 (code bug evidence): when no API key is present in the process
environment the key falls back to the placeholder "None", and the health
handler nevertheless reports openaiConfigured = true for every bridge
state, because the placeholder is a non-empty string. -/
theorem openaiConfigured_true_without_env_key (s : BridgeState) :
    OPENAI_API_KEY none = "None" ∧
      (healthHandler s none).openaiConfigured = true := by
  constructor
  · rfl
  · rfl

/-- The POST /api/tools/call handler (src/backend.js lines 77-95),
parameterized by the Tool Host's call operation. It returns the
forwarded HTTP result together with the (name, arguments) pair actually
sent to the Tool Host; `args || {}` defaults a missing or falsy
arguments field to the empty mapping. -/
def toolsCallHandler (callTool : String → Args → Except String ToolResult)
    (name : String) (args : Option Args) :
    Except String ToolResult × (String × Args) :=
  let a := args.getD []
  (callTool name a, (name, a))

/-- C10: For every request body that omits the arguments field (modelled
as `none`), the /api/tools/call handler forwards the empty argument
mapping to the Tool Host's call operation instead of rejecting the
request before forwarding: the result is exactly the Tool Host's answer
on the empty mapping. -/
theorem tools_call_defaults_missing_arguments
    (callTool : String → Args → Except String ToolResult) (name : String) :
    toolsCallHandler callTool name none = (callTool name [], (name, [])) := by
  rfl

/-! The /api/chat orchestration (src/backend.js lines 110-206). -/

/-- One tool invocation requested by the LLM's assistant message
(src/backend.js lines 155-157). The `arguments` field holds the result
of `JSON.parse(toolCall.function.arguments || '{}')`; the JSON text
serialization across the LLM API boundary is external and modelled
post-parse. -/
structure ToolCallReq where
  id : String
  name : String
  arguments : Args
deriving Repr

/-- The LLM backend's assistant message (`completion.choices[0].message`,
src/backend.js line 143): optional text content and a possibly-empty
list of requested tool invocations (an absent `tool_calls` field is
modelled as the empty list). -/
structure AssistantMessage where
  content : Option String
  tool_calls : List ToolCallReq
deriving Repr

/-- One record of the response's toolCalls list
(src/backend.js lines 184-188). -/
structure ToolCallRecord where
  name : String
  arguments : Args
  result : String
deriving Repr

/-- One tool-answer turn pushed to toolResults
(src/backend.js lines 177-182). -/
structure ToolMsg where
  tool_call_id : String
  role : String
  name : String
  content : String
deriving Repr

/-- The body of the /api/chat HTTP response
(src/backend.js lines 144-147). -/
structure ChatResponse where
  content : String
  toolCalls : List ToolCallRecord
deriving Repr

/-- A turn of the conversation sent to the LLM backend: a plain
role/content object, the assistant's tool-requesting message, or a
tool-answer turn. -/
inductive ChatMsg where
  | plain (role : String) (content : String)
  | assistant (m : AssistantMessage)
  | tool (t : ToolMsg)
deriving Repr

/-- The fixed system turn of every chat exchange
(src/backend.js lines 122-125). -/
def systemPrompt : String :=
  "You are a helpful assistant that can use tools to help users. When you need to use a tool, call it with the appropriate parameters."

/-- The message list built for the first LLM call
(src/backend.js lines 121-131): system turn, caller history verbatim,
new user turn. -/
def buildMessages (message : String) (history : List ChatMsg) : List ChatMsg :=
  ChatMsg.plain "system" systemPrompt :: history ++ [ChatMsg.plain "user" message]

/-- A minimal JSON string escape, as performed by JSON.stringify on the
fallback serialization paths. -/
def jsonEscapeChar (c : Char) : String :=
  if c = '"' then "\\\""
  else if c = '\\' then "\\\\"
  else if c = '\n' then "\\n"
  else if c = '\r' then "\\r"
  else if c = '\t' then "\\t"
  else String.singleton c

/-- JSON string escaping applied to every character. -/
def jsonEscape (s : String) : String :=
  String.join (s.toList.map jsonEscapeChar)

/-- JSON.stringify of one content block, used when the block's text is
falsy (src/backend.js line 173). -/
def stringifyTextContent (c : TextContent) : String :=
  "\x7b\"type\":\"" ++ jsonEscape c.type ++ "\",\"text\":\"" ++
    jsonEscape c.text ++ "\"\x7d"

/-- JSON.stringify of a whole tool result, used when it has no content
blocks (src/backend.js line 175). -/
def stringifyToolResult (r : ToolResult) : String :=
  "\x7b\"content\":[" ++
    String.intercalate "," (r.content.map stringifyTextContent) ++ "]\x7d"

/-- Extraction of the flat result text from a Tool Host result
(src/backend.js lines 170-176): the first content block's text when
present and non-empty, else a JSON fallback serialization. -/
def extractResultText (toolResult : ToolResult) : String :=
  match toolResult.content with
  | [] => stringifyToolResult toolResult
  | first :: _ =>
      if first.text == "" then stringifyTextContent first else first.text

/-- The tool-answer turn produced for one requested invocation: the loop
body's push onto toolResults (src/backend.js lines 177-182). -/
def toolMsgOf (callTool : String → Args → ToolResult) (tc : ToolCallReq) : ToolMsg :=
  { tool_call_id := tc.id, role := "tool", name := tc.name,
    content := extractResultText (callTool tc.name tc.arguments) }

/-- The toolCalls record produced for one requested invocation: the loop
body's push onto response.toolCalls (src/backend.js lines 184-188). -/
def toolRecordOf (callTool : String → Args → ToolResult) (tc : ToolCallReq) :
    ToolCallRecord :=
  { name := tc.name, arguments := tc.arguments,
    result := extractResultText (callTool tc.name tc.arguments) }

/-- The sequential for-loop over the assistant's tool calls
(src/backend.js lines 153-189): for each requested invocation, in
order, call the Tool Host, extract the result text, and append the
tool-answer turn, the toolCalls record and the performed (name,
arguments) call. Returns (toolResults, response.toolCalls records,
ordered Tool Host call trace). -/
def runToolCalls (callTool : String → Args → ToolResult) :
    List ToolCallReq → List ToolMsg × List ToolCallRecord × List (String × Args)
  | [] => ([], [], [])
  | tc :: rest =>
      let toolResult := callTool tc.name tc.arguments
      let resultText := extractResultText toolResult
      let (ms, rs, cs) := runToolCalls callTool rest
      ({ tool_call_id := tc.id, role := "tool", name := tc.name,
         content := resultText } :: ms,
       { name := tc.name, arguments := tc.arguments,
         result := resultText } :: rs,
       (tc.name, tc.arguments) :: cs)

/-- The observable outcome of one /api/chat exchange: the HTTP response
plus the effect trace — the ordered Tool Host calls performed, the
tool-answer turns, the follow-up message list (when a second LLM call is
made) and the number of follow-up LLM calls. -/
structure ChatOutcome where
  response : ChatResponse
  mcpCalls : List (String × Args)
  toolMsgs : List ToolMsg
  followUpMessages : Option (List ChatMsg)
  followUpLLMCalls : Nat
deriving Repr

/-- The /api/chat handler (src/backend.js lines 110-206), parameterized
by the Tool Host's call operation and by the LLM backend's two
responses: `assistantMessage` is the first completion's message and
`followUpContent` the second completion's text (consulted only when the
first message requests tool calls). A Tool Host call that throws aborts
the exchange with an HTTP error outside these claims, so `callTool`
models a responding host. -/
def chatHandler (callTool : String → Args → ToolResult) (message : String)
    (history : List ChatMsg) (assistantMessage : AssistantMessage)
    (followUpContent : Option String) : ChatOutcome :=
  let messages := buildMessages message history
  let base : ChatResponse :=
    { content := jsOr assistantMessage.content "", toolCalls := [] }
  if assistantMessage.tool_calls.isEmpty then
    { response := base, mcpCalls := [], toolMsgs := [],
      followUpMessages := none, followUpLLMCalls := 0 }
  else
    let (toolResults, records, calls) :=
      runToolCalls callTool assistantMessage.tool_calls
    let followUpMessages :=
      messages ++ [ChatMsg.assistant assistantMessage] ++
        toolResults.map ChatMsg.tool
    { response :=
        { content := jsOr followUpContent base.content, toolCalls := records },
      mcpCalls := calls, toolMsgs := toolResults,
      followUpMessages := some followUpMessages, followUpLLMCalls := 1 }

/-- The for-loop processes the requested invocations element-wise, in
order: its three outputs are the maps of the per-invocation turn,
record and call over the requested list. -/
theorem runToolCalls_eq (callTool : String → Args → ToolResult)
    (tcs : List ToolCallReq) :
    runToolCalls callTool tcs =
      (tcs.map (toolMsgOf callTool), tcs.map (toolRecordOf callTool),
       tcs.map (fun tc => (tc.name, tc.arguments))) := by
  induction tcs with
  | nil => rfl
  | cons tc rest ih => simp [runToolCalls, ih, toolMsgOf, toolRecordOf]

/-- C4: For every chat exchange in which the LLM backend's first
response has text t and contains no tool-invocation requests, the chat
handler returns exactly t as content with an empty toolCalls list,
performs zero invocations of the Tool Host's call operation, and makes
no follow-up LLM call. -/
theorem chat_no_tool_calls (callTool : String → Args → ToolResult)
    (message : String) (history : List ChatMsg) (m : AssistantMessage)
    (followUpContent : Option String) (t : String)
    (hcalls : m.tool_calls = []) (htext : m.content = some t) :
    (chatHandler callTool message history m followUpContent).response.content = t ∧
      (chatHandler callTool message history m followUpContent).response.toolCalls = [] ∧
      (chatHandler callTool message history m followUpContent).mcpCalls = [] ∧
      (chatHandler callTool message history m followUpContent).followUpLLMCalls = 0 := by
  by_cases hempty : t = "" <;>
    simp [chatHandler, hcalls, htext, jsOr, hempty]

/-- A degenerate Tool Host used to instantiate the chat theorems at
concrete inputs: every call answers with a fixed text block. -/
def demoCallTool : String → Args → ToolResult :=
  fun _ _ => { content := [{ type := "text", text := "Echo: hi" }] }

/-- Witness for C4: a concrete exchange whose first LLM response is the
plain text "hello" with no tool calls. -/
theorem chat_no_tool_calls_witness :
    (chatHandler demoCallTool "hi" []
        { content := some "hello", tool_calls := [] } none).response.content = "hello" ∧
      (chatHandler demoCallTool "hi" []
        { content := some "hello", tool_calls := [] } none).response.toolCalls = [] ∧
      (chatHandler demoCallTool "hi" []
        { content := some "hello", tool_calls := [] } none).mcpCalls = [] ∧
      (chatHandler demoCallTool "hi" []
        { content := some "hello", tool_calls := [] } none).followUpLLMCalls = 0 :=
  chat_no_tool_calls demoCallTool "hi" []
    { content := some "hello", tool_calls := [] } none "hello" rfl rfl

/-- C5: For every chat exchange in which the LLM backend's first
response requests exactly one tool invocation, the chat handler performs
exactly one Tool Host call with the requested name and arguments, makes
exactly one follow-up LLM call, and returns a toolCalls list of length
one whose name and arguments equal the requested ones and whose result
equals the text extracted from the actual Tool Host result. -/
theorem chat_single_tool_call (callTool : String → Args → ToolResult)
    (message : String) (history : List ChatMsg) (m : AssistantMessage)
    (followUpContent : Option String) (tc : ToolCallReq)
    (hcalls : m.tool_calls = [tc]) :
    (chatHandler callTool message history m followUpContent).mcpCalls =
        [(tc.name, tc.arguments)] ∧
      (chatHandler callTool message history m followUpContent).followUpLLMCalls = 1 ∧
      (chatHandler callTool message history m followUpContent).response.toolCalls =
        [{ name := tc.name, arguments := tc.arguments,
           result := extractResultText (callTool tc.name tc.arguments) }] := by
  simp [chatHandler, hcalls, runToolCalls_eq, toolRecordOf]

/-- Witness for C5: a concrete exchange whose first LLM response
requests exactly the echo invocation with message "hi". -/
theorem chat_single_tool_call_witness :
    (chatHandler demoCallTool "Please echo hi" []
        { content := none,
          tool_calls :=
            [{ id := "call_1", name := "echo",
               arguments := [("message", JsonValue.str "hi")] }] }
        (some "The message was echoed: hi")).mcpCalls =
        [("echo", [("message", JsonValue.str "hi")])] ∧
      (chatHandler demoCallTool "Please echo hi" []
        { content := none,
          tool_calls :=
            [{ id := "call_1", name := "echo",
               arguments := [("message", JsonValue.str "hi")] }] }
        (some "The message was echoed: hi")).followUpLLMCalls = 1 ∧
      (chatHandler demoCallTool "Please echo hi" []
        { content := none,
          tool_calls :=
            [{ id := "call_1", name := "echo",
               arguments := [("message", JsonValue.str "hi")] }] }
        (some "The message was echoed: hi")).response.toolCalls =
        [{ name := "echo", arguments := [("message", JsonValue.str "hi")],
           result := "Echo: hi" }] :=
  chat_single_tool_call demoCallTool "Please echo hi" []
    { content := none,
      tool_calls :=
        [{ id := "call_1", name := "echo",
           arguments := [("message", JsonValue.str "hi")] }] }
    (some "The message was echoed: hi")
    { id := "call_1", name := "echo",
      arguments := [("message", JsonValue.str "hi")] } rfl

/-- C6: For every chat exchange in which the LLM backend's first
response requests multiple tool invocations, the invocations execute
strictly sequentially in exactly the order the backend listed them, with
no reordering, and both the tool-answer turns and the returned toolCalls
records appear in that same order; the follow-up message list appends
the tool-answer turns in that order after the assistant turn. -/
theorem chat_tool_calls_sequential_order (callTool : String → Args → ToolResult)
    (message : String) (history : List ChatMsg) (m : AssistantMessage)
    (followUpContent : Option String)
    (hmulti : 1 < m.tool_calls.length) :
    (chatHandler callTool message history m followUpContent).mcpCalls =
        m.tool_calls.map (fun tc => (tc.name, tc.arguments)) ∧
      (chatHandler callTool message history m followUpContent).toolMsgs =
        m.tool_calls.map (toolMsgOf callTool) ∧
      (chatHandler callTool message history m followUpContent).response.toolCalls =
        m.tool_calls.map (toolRecordOf callTool) ∧
      (chatHandler callTool message history m followUpContent).followUpMessages =
        some (buildMessages message history ++ [ChatMsg.assistant m] ++
          (m.tool_calls.map (toolMsgOf callTool)).map ChatMsg.tool) := by
  have hne : m.tool_calls.isEmpty = false := by
    cases h : m.tool_calls with
    | nil => rw [h] at hmulti; simp at hmulti
    | cons a rest => simp [h]
  simp [chatHandler, hne, runToolCalls_eq]

/-- Witness for C6: a concrete exchange whose first LLM response
requests two echo invocations; the trace, the tool-answer turns and the
records all follow the listed order. -/
theorem chat_tool_calls_sequential_order_witness :
    (chatHandler demoCallTool "echo twice" []
        { content := none,
          tool_calls :=
            [{ id := "call_1", name := "echo",
               arguments := [("message", JsonValue.str "first")] },
             { id := "call_2", name := "echo",
               arguments := [("message", JsonValue.str "second")] }] }
        (some "done")).mcpCalls =
        [("echo", [("message", JsonValue.str "first")]),
         ("echo", [("message", JsonValue.str "second")])] ∧
      (chatHandler demoCallTool "echo twice" []
        { content := none,
          tool_calls :=
            [{ id := "call_1", name := "echo",
               arguments := [("message", JsonValue.str "first")] },
             { id := "call_2", name := "echo",
               arguments := [("message", JsonValue.str "second")] }] }
        (some "done")).toolMsgs =
        [toolMsgOf demoCallTool
          { id := "call_1", name := "echo",
            arguments := [("message", JsonValue.str "first")] },
         toolMsgOf demoCallTool
          { id := "call_2", name := "echo",
            arguments := [("message", JsonValue.str "second")] }] ∧
      (chatHandler demoCallTool "echo twice" []
        { content := none,
          tool_calls :=
            [{ id := "call_1", name := "echo",
               arguments := [("message", JsonValue.str "first")] },
             { id := "call_2", name := "echo",
               arguments := [("message", JsonValue.str "second")] }] }
        (some "done")).response.toolCalls =
        [toolRecordOf demoCallTool
          { id := "call_1", name := "echo",
            arguments := [("message", JsonValue.str "first")] },
         toolRecordOf demoCallTool
          { id := "call_2", name := "echo",
            arguments := [("message", JsonValue.str "second")] }] ∧
      (chatHandler demoCallTool "echo twice" []
        { content := none,
          tool_calls :=
            [{ id := "call_1", name := "echo",
               arguments := [("message", JsonValue.str "first")] },
             { id := "call_2", name := "echo",
               arguments := [("message", JsonValue.str "second")] }] }
        (some "done")).followUpMessages =
        some (buildMessages "echo twice" [] ++
          [ChatMsg.assistant
            { content := none,
              tool_calls :=
                [{ id := "call_1", name := "echo",
                   arguments := [("message", JsonValue.str "first")] },
                 { id := "call_2", name := "echo",
                   arguments := [("message", JsonValue.str "second")] }] }] ++
          [ChatMsg.tool (toolMsgOf demoCallTool
            { id := "call_1", name := "echo",
              arguments := [("message", JsonValue.str "first")] }),
           ChatMsg.tool (toolMsgOf demoCallTool
            { id := "call_2", name := "echo",
              arguments := [("message", JsonValue.str "second")] })]) :=
  chat_tool_calls_sequential_order demoCallTool "echo twice" []
    { content := none,
      tool_calls :=
        [{ id := "call_1", name := "echo",
           arguments := [("message", JsonValue.str "first")] },
         { id := "call_2", name := "echo",
           arguments := [("message", JsonValue.str "second")] }] }
    (some "done") (by simp)

end MCPBridge
